import Mathlib

/-!
Shallow embedding of the adaptive inventory decision engine
(`core_modules/inventory_agent.py`, class `IntelligentInventoryAgent`).

Numbers are embedded as `ℚ` (Python floats are modelled as exact rationals);
Python `int(x)` truncation toward zero is `truncQ`; Python's substring test
`needle in hay` is `pyIn`; `np.mean` over a list is `listMean`; the Python
dict `scenario_memory` (insertion-ordered) is an association list.  The
stochastic draw `np.random.normal(0, 0.1 * |predicted_demand|)` is modelled
by an injectable per-period `noise` value (the spec requires the noise
source to be injectable), added exactly as the source does:
`actual_demand = max(0, predicted_demand + noise)`.
-/

namespace InventorySpec

/-- `charsStartWith s p` is true when `p` is an initial segment of `s`. -/
def charsStartWith : List Char → List Char → Bool
  | _, [] => true
  | [], _ :: _ => false
  | a :: as, b :: bs => a == b && charsStartWith as bs

/-- `charsContain s p` is true when `p` occurs contiguously inside `s`. -/
def charsContain : List Char → List Char → Bool
  | [], p => charsStartWith [] p
  | a :: as, p => charsStartWith (a :: as) p || charsContain as p

/-- Python's substring test `needle in hay`. -/
def pyIn (needle hay : String) : Bool :=
  charsContain hay.data needle.data

/-- Python `int(x)` on a float: truncation toward zero. -/
def truncQ (x : ℚ) : ℤ :=
  if 0 ≤ x then ⌊x⌋ else ⌈x⌉

/-- `np.mean` of a list of rationals (callers guard against the empty list). -/
def listMean (l : List ℚ) : ℚ :=
  l.sum / (l.length : ℚ)

/-- One entry of the agent's `scenario_memory` dict. -/
structure MemEntry where
  encounters : Nat
  avg_demand : ℚ
  max_demand : ℚ
  successful_strategies : List String
deriving Repr, DecidableEq, Inhabited

/-- An `orders_placed` log entry (dict built in `_record_order`). -/
structure Order where
  date : Nat
  quantity : ℤ
  scenario : String
  urgency : String
  cost : ℤ
  lead_time_expected : Nat
deriving Repr, DecidableEq, Inhabited

/-- A `decisions_log` entry (dict built in `make_intelligent_decision`).
In the source the keys `actual_demand` / `demand_fulfilled` are added
before the record is appended, so every logged record carries them; here
they are ordinary fields, initialised to 0 and overwritten before logging.
The numeric interpolation inside the `reason` f-strings is elided (no
claim inspects it). -/
structure Decision where
  date : Nat
  scenario : String
  predicted_demand : ℚ
  current_stock_before : ℚ
  urgency_level : String
  strategy_notes : String
  adaptive_reorder_point : ℚ
  adaptive_reorder_quantity : ℚ
  action : String
  order_quantity : ℤ
  reason : String
  current_stock_after : ℚ
  actual_demand : ℚ
  demand_fulfilled : ℚ
deriving Repr, DecidableEq, Inhabited

/-- The mutable state of `IntelligentInventoryAgent`. -/
structure IntelligentInventoryAgent where
  current_stock : ℚ
  base_reorder_point : ℚ
  base_reorder_quantity : ℚ
  orders_placed : List Order
  stockouts : Nat
  decisions_log : List Decision
  scenario_memory : List (String × MemEntry)
  total_revenue : ℚ
  total_costs : ℤ
  customer_satisfaction_score : ℚ
  safety_stock_multiplier : ℚ
  max_order_size : ℚ
  lead_time_days : Nat
deriving Repr, DecidableEq, Inhabited

namespace IntelligentInventoryAgent

/-- `__init__(initial_stock=2000, base_reorder_point=300, base_reorder_quantity=800)`. -/
def init (initial_stock base_reorder_point base_reorder_quantity : ℚ) :
    IntelligentInventoryAgent where
  current_stock := initial_stock
  base_reorder_point := base_reorder_point
  base_reorder_quantity := base_reorder_quantity
  orders_placed := []
  stockouts := 0
  decisions_log := []
  scenario_memory := []
  total_revenue := 0
  total_costs := 0
  customer_satisfaction_score := 100
  safety_stock_multiplier := 6/5
  max_order_size := 5000
  lead_time_days := 3

/-- The adaptation dict returned by `analyze_scenario_and_adapt`. -/
structure Adaptation where
  reorder_point : ℚ
  reorder_quantity : ℚ
  urgency_level : String
  strategy_notes : String
deriving Repr, DecidableEq, Inhabited

/-- The pure branch cascade of `analyze_scenario_and_adapt` (lines 36–93):
first matching substring rule wins, default is the base policy. -/
def analyze_scenario_policy (a : IntelligentInventoryAgent) (scenario_name : String) :
    Adaptation :=
  if pyIn "Viral" scenario_name || pyIn "Celebrity" scenario_name then
    { reorder_point := a.base_reorder_point * (5/2)
      reorder_quantity := min (a.base_reorder_quantity * 3) a.max_order_size
      urgency_level := "Critical - Viral Event"
      strategy_notes := "Preparing for viral demand spike - maximizing availability" }
  else if pyIn "Black_Friday" scenario_name then
    { reorder_point := a.base_reorder_point * 3
      reorder_quantity := min (a.base_reorder_quantity * 4) a.max_order_size
      urgency_level := "Critical - Black Friday"
      strategy_notes := "Black Friday preparation - ensuring maximum stock availability" }
  else if pyIn "Supply_Chain_Disruption" scenario_name then
    { reorder_point := a.base_reorder_point * (9/5)
      reorder_quantity := a.base_reorder_quantity * (7/10)
      urgency_level := "Caution - Supply Issues"
      strategy_notes := "Supply chain disruption - smaller orders to reduce risk" }
  else if pyIn "Economic_Downturn" scenario_name then
    { reorder_point := a.base_reorder_point * (7/10)
      reorder_quantity := a.base_reorder_quantity * (3/5)
      urgency_level := "Conservative - Economic Risk"
      strategy_notes := "Economic downturn - minimizing inventory investment" }
  else if pyIn "Competitor_Stockout" scenario_name then
    { reorder_point := a.base_reorder_point * (3/2)
      reorder_quantity := min (a.base_reorder_quantity * 2) a.max_order_size
      urgency_level := "Opportunity - Market Capture"
      strategy_notes := "Competitor stockout - capturing increased market share" }
  else if pyIn "Post_Holiday" scenario_name then
    { reorder_point := a.base_reorder_point * (1/2)
      reorder_quantity := a.base_reorder_quantity * (2/5)
      urgency_level := "Clearance Mode"
      strategy_notes := "Post-holiday clearance - minimal restocking" }
  else
    { reorder_point := a.base_reorder_point
      reorder_quantity := a.base_reorder_quantity
      urgency_level := "Normal"
      strategy_notes := "Standard operations" }

/-- The in-place update of one memory entry inside `_update_scenario_memory`:
`encounters += 1`, running mean, running max, append the urgency label. -/
def memBump (e : MemEntry) (demand : ℚ) (urgency_level : String) : MemEntry where
  encounters := e.encounters + 1
  avg_demand := (e.avg_demand * (e.encounters : ℚ) + demand) / ((e.encounters : ℚ) + 1)
  max_demand := max e.max_demand demand
  successful_strategies := e.successful_strategies ++ [urgency_level]

/-- `_update_scenario_memory`: create the entry if absent
(`encounters=0, avg_demand=0, max_demand=0, successful_strategies=[]`),
then apply `memBump`.  Dicts keep insertion order, so a new key goes last. -/
def update_scenario_memory :
    List (String × MemEntry) → String → ℚ → String → List (String × MemEntry)
  | [], scenario_name, demand, urgency_level =>
      [(scenario_name, memBump ⟨0, 0, 0, []⟩ demand urgency_level)]
  | (k, e) :: rest, scenario_name, demand, urgency_level =>
      if k = scenario_name then (k, memBump e demand urgency_level) :: rest
      else (k, e) :: update_scenario_memory rest scenario_name demand urgency_level

/-- `analyze_scenario_and_adapt`: resolve the policy and, as a side effect,
update the scenario memory (line 86). -/
def analyze_scenario_and_adapt (a : IntelligentInventoryAgent)
    (scenario_name : String) (predicted_demand : ℚ) :
    Adaptation × IntelligentInventoryAgent :=
  let adaptation := analyze_scenario_policy a scenario_name
  let mem := update_scenario_memory a.scenario_memory scenario_name
    predicted_demand adaptation.urgency_level
  (adaptation, { a with scenario_memory := mem })

/-- `_process_demand`: returns `(demand_fulfilled, stockout_amount, state')`. -/
def process_demand (a : IntelligentInventoryAgent) (actual_demand : ℚ) :
    ℚ × ℚ × IntelligentInventoryAgent :=
  if a.current_stock ≥ actual_demand then
    (actual_demand, 0,
     { a with current_stock := a.current_stock - actual_demand,
              total_revenue := a.total_revenue + actual_demand * 50 })
  else
    (a.current_stock, actual_demand - a.current_stock,
     { a with current_stock := 0,
              total_revenue := a.total_revenue + a.current_stock * 50 })

/-- `_calculate_smart_order_quantity`.  Every logged decision carries
`actual_demand` (see `Decision`), so the source's key-presence filter on
`decisions_log[-7:]` is the identity and `recent_demand` is the plain list
of the last 7 logged actual demands. -/
def calculate_smart_order_quantity (a : IntelligentInventoryAgent)
    (base_quantity predicted_demand : ℚ) (scenario_name : String) : ℤ :=
  let order_quantity := base_quantity
  let order_quantity :=
    if a.decisions_log.length > 7 then
      let recent_demand :=
        ((a.decisions_log.drop (a.decisions_log.length - 7)).map
          Decision.actual_demand)
      let avg_weekly_demand :=
        if recent_demand ≠ [] then listMean recent_demand * 7
        else predicted_demand * 7
      let weeks_coverage : ℚ :=
        if pyIn "Critical" scenario_name then 4
        else if pyIn "Conservative" scenario_name then 3/2
        else 5/2
      max order_quantity (avg_weekly_demand * weeks_coverage)
    else order_quantity
  truncQ (min order_quantity a.max_order_size)

/-- `_record_order`: append the order dict and accrue its cost. -/
def record_order (a : IntelligentInventoryAgent) (date : Nat) (quantity : ℤ)
    (scenario urgency : String) : IntelligentInventoryAgent :=
  let order : Order :=
    { date := date, quantity := quantity, scenario := scenario,
      urgency := urgency, cost := quantity * 30,
      lead_time_expected := a.lead_time_days }
  { a with orders_placed := a.orders_placed ++ [order],
           total_costs := a.total_costs + order.cost }

/-- `make_intelligent_decision(predicted_demand, current_date, scenario_name)`,
with the per-period noise draw passed in explicitly. -/
def make_intelligent_decision (a : IntelligentInventoryAgent) (noise : ℚ)
    (predicted_demand0 : ℚ) (current_date : Nat)
    (scenario_name : String := "Normal_Operations") :
    Decision × IntelligentInventoryAgent :=
  let predicted_demand := max 0 predicted_demand0
  let adapted := analyze_scenario_and_adapt a scenario_name predicted_demand
  let adaptation := adapted.1
  let a1 := adapted.2
  let decision0 : Decision :=
    { date := current_date
      scenario := scenario_name
      predicted_demand := predicted_demand
      current_stock_before := a1.current_stock
      urgency_level := adaptation.urgency_level
      strategy_notes := adaptation.strategy_notes
      adaptive_reorder_point := adaptation.reorder_point
      adaptive_reorder_quantity := adaptation.reorder_quantity
      action := "no_action"
      order_quantity := 0
      reason := ""
      current_stock_after := a1.current_stock
      actual_demand := 0
      demand_fulfilled := 0 }
  let actual_demand := max 0 (predicted_demand + noise)
  let processed := process_demand a1 actual_demand
  let demand_fulfilled := processed.1
  let stockout_amount := processed.2.1
  let a2 := processed.2.2
  let decision1 :=
    if stockout_amount > 0 then
      { decision0 with action := "stockout",
                       reason := "Stockout: units unfulfilled" }
    else decision0
  let a3 :=
    if stockout_amount > 0 then
      { a2 with stockouts := a2.stockouts + 1,
                customer_satisfaction_score :=
                  max 0 (a2.customer_satisfaction_score - 2) }
    else a2
  let decision2 :=
    { decision1 with current_stock_after := a3.current_stock,
                     actual_demand := actual_demand,
                     demand_fulfilled := demand_fulfilled }
  let result :=
    if a3.current_stock ≤ adaptation.reorder_point then
      let order_quantity :=
        calculate_smart_order_quantity a3 adaptation.reorder_quantity
          predicted_demand scenario_name
      let a4 := { a3 with current_stock := a3.current_stock + (order_quantity : ℚ) }
      let a5 := record_order a4 current_date order_quantity scenario_name
        adaptation.urgency_level
      ({ decision2 with action := "intelligent_reorder",
                        order_quantity := order_quantity,
                        reason := "Smart reorder: " ++ adaptation.strategy_notes,
                        current_stock_after := a5.current_stock }, a5)
    else (decision2, a3)
  let decision := result.1
  let a6 := result.2
  (decision, { a6 with decisions_log := a6.decisions_log ++ [decision] })

/-- `reset_simulation(initial_stock=None)`.  The guard is Python truthiness:
`if initial_stock:` treats both `None` and `0` as false.  `scenario_memory`
is not touched by the source. -/
def reset_simulation (a : IntelligentInventoryAgent)
    (initial_stock : Option ℚ) : IntelligentInventoryAgent :=
  let stock : ℚ :=
    match initial_stock with
    | some s => if s = 0 then 2000 else s
    | none => 2000
  { a with current_stock := stock,
           orders_placed := [],
           stockouts := 0,
           decisions_log := [],
           total_revenue := 0,
           total_costs := 0,
           customer_satisfaction_score := 100 }

end IntelligentInventoryAgent

/-- One streamed period event: the engine inputs plus the injected noise
draw for that period. -/
structure PeriodEvent where
  predicted_demand : ℚ
  date : Nat
  scenario : String
  noise : ℚ
deriving Repr, DecidableEq, Inhabited

/-- Apply one period event to the engine state. -/
def stepEvent (a : IntelligentInventoryAgent) (ev : PeriodEvent) :
    IntelligentInventoryAgent :=
  (a.make_intelligent_decision ev.noise ev.predicted_demand ev.date ev.scenario).2

/-- Run a sequence of period events through the engine. -/
def runEvents (a : IntelligentInventoryAgent) (evs : List PeriodEvent) :
    IntelligentInventoryAgent :=
  evs.foldl stepEvent a

end InventorySpec


namespace InventorySpec

open IntelligentInventoryAgent

section ClaimVerification

attribute [local semireducible] Rat.add Rat.sub Rat.mul Rat.inv Rat.ofScientific

set_option maxRecDepth 400000

/-- The engine with the documented default configuration. -/
def agentDefault : IntelligentInventoryAgent := init 2000 300 800

/-- `n` consecutive `"Normal_Operations"` periods, days `1..n`, each with
`predicted_demand = 100` and zero injected noise. -/
def normalPeriods (n : Nat) : List PeriodEvent :=
  (List.range n).map (fun i => ⟨100, i + 1, "Normal_Operations", 0⟩)

/-- The run refuting C3: 8 normal periods, then a `"Viral_Spike_Test"`
period with predicted demand 500 that triggers a reorder. -/
def c3Events : List PeriodEvent :=
  normalPeriods 8 ++ [⟨500, 9, "Viral_Spike_Test", 0⟩]

/-- Demand values recorded in scenario memory for label `name` over the
event sequence `evs`: the clamped predicted demand of each period whose
scenario label equals `name`. -/
def recordedDemands (evs : List PeriodEvent) (name : String) : List ℚ :=
  (evs.filter (fun ev => ev.scenario == name)).map
    (fun ev => max 0 ev.predicted_demand)

/-- Faithfulness of a scenario-memory snapshot to the events already
processed: every present entry carries the exact encounter count and the
exact arithmetic mean of the demands recorded under its label, and absent
labels have no recorded demands. -/
def memFaithful (mem : List (String × MemEntry)) (evs : List PeriodEvent) : Prop :=
  ∀ name : String,
    (∀ e, mem.lookup name = some e →
      e.encounters = (evs.filter (fun ev => ev.scenario == name)).length ∧
      e.encounters ≠ 0 ∧
      e.avg_demand = listMean (recordedDemands evs name)) ∧
    (mem.lookup name = none → recordedDemands evs name = [])

lemma runEvents_cons (a : IntelligentInventoryAgent) (ev : PeriodEvent)
    (evs : List PeriodEvent) :
    runEvents a (ev :: evs) = runEvents (stepEvent a ev) evs := rfl

lemma make_decisions_log
    (a : IntelligentInventoryAgent) (noise pd : ℚ) (d : Nat) (n : String) :
    (a.make_intelligent_decision noise pd d n).2.decisions_log =
      a.decisions_log ++ [(a.make_intelligent_decision noise pd d n).1] := by
  simp only [make_intelligent_decision, analyze_scenario_and_adapt,
    process_demand, record_order]
  split <;> split <;> split <;> simp

lemma make_frame
    (a : IntelligentInventoryAgent) (noise pd : ℚ) (d : Nat) (n : String) :
    (a.make_intelligent_decision noise pd d n).2.base_reorder_point =
      a.base_reorder_point ∧
    (a.make_intelligent_decision noise pd d n).2.base_reorder_quantity =
      a.base_reorder_quantity ∧
    (a.make_intelligent_decision noise pd d n).2.max_order_size =
      a.max_order_size ∧
    (a.make_intelligent_decision noise pd d n).2.lead_time_days =
      a.lead_time_days := by
  simp only [make_intelligent_decision, analyze_scenario_and_adapt,
    process_demand, record_order]
  split <;> split <;> split <;> simp

lemma make_scenario_memory
    (a : IntelligentInventoryAgent) (noise pd : ℚ) (d : Nat) (n : String) :
    (a.make_intelligent_decision noise pd d n).2.scenario_memory =
      update_scenario_memory a.scenario_memory n (max 0 pd)
        (analyze_scenario_policy a n).urgency_level := by
  simp only [make_intelligent_decision, analyze_scenario_and_adapt,
    process_demand, record_order]
  split <;> split <;> split <;> simp

lemma truncQ_nonneg {x : ℚ} (hx : 0 ≤ x) : 0 ≤ truncQ x := by
  unfold truncQ
  rw [if_pos hx]
  exact_mod_cast Int.floor_nonneg.mpr hx

lemma truncQ_le {x y : ℚ} (hy : 0 ≤ y) (hxy : x ≤ y) : (truncQ x : ℚ) ≤ y := by
  unfold truncQ
  split
  · exact le_trans (Int.floor_le x) hxy
  · rename_i hneg
    have hx0 : x ≤ 0 := (not_le.mp hneg).le
    have hc : (⌈x⌉ : ℤ) ≤ 0 := Int.ceil_le.mpr (by exact_mod_cast hx0)
    calc ((⌈x⌉ : ℤ) : ℚ) ≤ 0 := by exact_mod_cast hc
      _ ≤ y := hy

lemma policy_reorder_quantity_nonneg
    (a : IntelligentInventoryAgent) (n : String)
    (hq : 0 ≤ a.base_reorder_quantity) (hm : 0 ≤ a.max_order_size) :
    0 ≤ (analyze_scenario_policy a n).reorder_quantity := by
  unfold analyze_scenario_policy
  split
  · exact le_min (by positivity) hm
  · split
    · exact le_min (by positivity) hm
    · split
      · positivity
      · split
        · positivity
        · split
          · exact le_min (by positivity) hm
          · split
            · positivity
            · exact hq

lemma smart_quantity_nonneg
    (a : IntelligentInventoryAgent) (base pd : ℚ) (n : String)
    (hb : 0 ≤ base) (hm : 0 ≤ a.max_order_size) :
    0 ≤ calculate_smart_order_quantity a base pd n := by
  unfold calculate_smart_order_quantity
  apply truncQ_nonneg
  apply le_min _ hm
  split
  · exact le_trans hb (le_max_left _ _)
  · exact hb

lemma smart_quantity_le_max
    (a : IntelligentInventoryAgent) (base pd : ℚ) (n : String)
    (hm : 0 ≤ a.max_order_size) :
    (calculate_smart_order_quantity a base pd n : ℚ) ≤ a.max_order_size := by
  unfold calculate_smart_order_quantity
  exact truncQ_le hm (min_le_right _ _)

lemma make_stock_nonneg (a : IntelligentInventoryAgent) (noise pd : ℚ)
    (d : Nat) (n : String)
    (hs : 0 ≤ a.current_stock) (hq : 0 ≤ a.base_reorder_quantity)
    (hm : 0 ≤ a.max_order_size) :
    0 ≤ (a.make_intelligent_decision noise pd d n).2.current_stock := by
  simp only [make_intelligent_decision, analyze_scenario_and_adapt,
    process_demand, record_order]
  split <;> split <;> split <;> simp_all
  · rename_i h1 h2
    refine add_nonneg (sub_nonneg.mpr (sup_le hs h1)) ?_
    exact_mod_cast smart_quantity_nonneg _ _ _ _
      (policy_reorder_quantity_nonneg a n hq hm) hm
  · exact_mod_cast smart_quantity_nonneg _ _ _ _
      (policy_reorder_quantity_nonneg a n hq hm) hm

lemma make_orders_bound (a : IntelligentInventoryAgent) (noise pd : ℚ)
    (d : Nat) (n : String)
    (hm : 0 ≤ a.max_order_size)
    (hb : ∀ o ∈ a.orders_placed, (o.quantity : ℚ) ≤ a.max_order_size) :
    ∀ o ∈ (a.make_intelligent_decision noise pd d n).2.orders_placed,
      (o.quantity : ℚ) ≤
        (a.make_intelligent_decision noise pd d n).2.max_order_size := by
  simp only [make_intelligent_decision, analyze_scenario_and_adapt,
    process_demand, record_order]
  split <;> split <;> split <;> simp_all
  all_goals
    rintro o (hmem | rfl)
    · exact hb o hmem
    · exact smart_quantity_le_max _ _ _ _ hm

lemma runEvents_stock_invariant (evs : List PeriodEvent) :
    ∀ a : IntelligentInventoryAgent,
      0 ≤ a.current_stock → 0 ≤ a.base_reorder_quantity →
      0 ≤ a.max_order_size →
      0 ≤ (runEvents a evs).current_stock ∧
      0 ≤ (runEvents a evs).base_reorder_quantity ∧
      0 ≤ (runEvents a evs).max_order_size := by
  induction evs with
  | nil => exact fun a h1 h2 h3 => ⟨h1, h2, h3⟩
  | cons ev rest ih =>
    intro a h1 h2 h3
    rw [runEvents_cons]
    have hstep : 0 ≤ (stepEvent a ev).current_stock :=
      make_stock_nonneg a ev.noise ev.predicted_demand ev.date ev.scenario
        h1 h2 h3
    have hf := make_frame a ev.noise ev.predicted_demand ev.date ev.scenario
    exact ih (stepEvent a ev) hstep (hf.2.1 ▸ h2) (hf.2.2.1 ▸ h3)

lemma runEvents_orders_invariant (evs : List PeriodEvent) :
    ∀ a : IntelligentInventoryAgent,
      0 ≤ a.max_order_size →
      (∀ o ∈ a.orders_placed, (o.quantity : ℚ) ≤ a.max_order_size) →
      0 ≤ (runEvents a evs).max_order_size ∧
      ∀ o ∈ (runEvents a evs).orders_placed,
        (o.quantity : ℚ) ≤ (runEvents a evs).max_order_size := by
  induction evs with
  | nil => exact fun a h1 h2 => ⟨h1, h2⟩
  | cons ev rest ih =>
    intro a h1 h2
    rw [runEvents_cons]
    have hf := make_frame a ev.noise ev.predicted_demand ev.date ev.scenario
    have hstep := make_orders_bound a ev.noise ev.predicted_demand ev.date
      ev.scenario h1 h2
    exact ih (stepEvent a ev) (hf.2.2.1 ▸ h1) hstep

lemma lookup_update_self (mem : List (String × MemEntry)) (k : String)
    (dm : ℚ) (u : String) :
    (update_scenario_memory mem k dm u).lookup k =
      some (memBump ((mem.lookup k).getD ⟨0, 0, 0, []⟩) dm u) := by
  induction mem with
  | nil => simp [update_scenario_memory, List.lookup]
  | cons p rest ih =>
    obtain ⟨k', e⟩ := p
    by_cases hk : k' = k
    · subst hk
      simp [update_scenario_memory, List.lookup]
    · have hb : (k == k') = false := by simpa using Ne.symm hk
      simp [update_scenario_memory, List.lookup, hk, hb, ih]

lemma lookup_update_ne (mem : List (String × MemEntry)) {k k' : String}
    (dm : ℚ) (u : String) (h : k' ≠ k) :
    (update_scenario_memory mem k dm u).lookup k' = mem.lookup k' := by
  have hb : (k' == k) = false := by simpa using h
  induction mem with
  | nil => simp [update_scenario_memory, List.lookup, hb]
  | cons p rest ih =>
    obtain ⟨k'', e⟩ := p
    by_cases hk : k'' = k
    · subst hk
      simp [update_scenario_memory, List.lookup, hb]
    · by_cases hk2 : k' = k''
      · subst hk2
        simp [update_scenario_memory, List.lookup, hk]
      · have hb2 : (k' == k'') = false := by simpa using hk2
        simp [update_scenario_memory, List.lookup, hk, hb2, ih]

lemma recordedDemands_append (evs : List PeriodEvent) (ev : PeriodEvent)
    (name : String) :
    recordedDemands (evs ++ [ev]) name =
      recordedDemands evs name ++
        (if ev.scenario == name then [max 0 ev.predicted_demand] else []) := by
  cases hb : (ev.scenario == name) <;>
    simp [recordedDemands, List.filter_append, List.filter, hb]

lemma listMean_append_singleton (l : List ℚ) (x : ℚ) (h : l ≠ []) :
    listMean (l ++ [x]) = (listMean l * l.length + x) / (l.length + 1) := by
  have hlen : (l.length : ℚ) ≠ 0 :=
    Nat.cast_ne_zero.mpr (List.length_pos.mpr h).ne'
  simp only [listMean, List.sum_append, List.length_append, List.sum_cons,
    List.sum_nil, List.length_cons, List.length_nil]
  rw [div_mul_cancel₀ _ hlen]
  push_cast
  ring_nf

lemma memFaithful_update (mem : List (String × MemEntry))
    (evs : List PeriodEvent) (hQ : memFaithful mem evs) (ev : PeriodEvent)
    (u : String) :
    memFaithful (update_scenario_memory mem ev.scenario
      (max 0 ev.predicted_demand) u) (evs ++ [ev]) := by
  intro name
  by_cases hn : name = ev.scenario
  · subst hn
    constructor
    · intro e he
      rw [lookup_update_self] at he
      have he2 : memBump ((mem.lookup ev.scenario).getD ⟨0, 0, 0, []⟩)
          (max 0 ev.predicted_demand) u = e := Option.some_inj.mp he
      subst he2
      have hrecapp : recordedDemands (evs ++ [ev]) ev.scenario =
          recordedDemands evs ev.scenario ++ [max 0 ev.predicted_demand] := by
        rw [recordedDemands_append]
        simp
      cases hold : mem.lookup ev.scenario with
      | none =>
        have hrec : recordedDemands evs ev.scenario = [] :=
          (hQ ev.scenario).2 hold
        have hfil : evs.filter (fun e2 => e2.scenario == ev.scenario) = [] := by
          simpa [recordedDemands] using hrec
        refine ⟨?_, ?_, ?_⟩
        · simp [memBump, List.filter_append, List.filter, hfil]
        · simp [memBump]
        · rw [hrecapp, hrec]
          simp [memBump, listMean]
      | some eold =>
        obtain ⟨h1, h2, h3⟩ := (hQ ev.scenario).1 eold hold
        have hlen2 : (recordedDemands evs ev.scenario).length =
            eold.encounters := by
          simp [recordedDemands, h1]
        have hrecne : recordedDemands evs ev.scenario ≠ [] := by
          intro hnil
          rw [hnil] at hlen2
          simp at hlen2
          exact h2 hlen2.symm
        refine ⟨?_, ?_, ?_⟩
        · simp [memBump, List.filter_append, List.filter, h1]
        · simp [memBump]
        · rw [hrecapp, listMean_append_singleton _ _ hrecne]
          simp only [memBump, Option.getD_some]
          rw [h3, hlen2]
    · intro hnone
      rw [lookup_update_self] at hnone
      simp at hnone
  · have h1 := lookup_update_ne mem (max 0 ev.predicted_demand) u hn
    rw [h1]
    have hbne : (ev.scenario == name) = false := by simpa using Ne.symm hn
    have h2 : recordedDemands (evs ++ [ev]) name = recordedDemands evs name := by
      rw [recordedDemands_append, hbne]
      simp
    have h3 : (List.filter (fun e2 => e2.scenario == name) (evs ++ [ev])) =
        List.filter (fun e2 => e2.scenario == name) evs := by
      simp [List.filter_append, List.filter, hbne]
    rw [h2, h3]
    exact hQ name

lemma runEvents_memFaithful (evs : List PeriodEvent) :
    ∀ (a : IntelligentInventoryAgent) (acc : List PeriodEvent),
      memFaithful a.scenario_memory acc →
      memFaithful (runEvents a evs).scenario_memory (acc ++ evs) := by
  induction evs with
  | nil => intro a acc h; simpa using h
  | cons ev rest ih =>
    intro a acc h
    rw [runEvents_cons]
    have hstep : (stepEvent a ev).scenario_memory =
        update_scenario_memory a.scenario_memory ev.scenario
          (max 0 ev.predicted_demand)
          (analyze_scenario_policy a ev.scenario).urgency_level :=
      make_scenario_memory a ev.noise ev.predicted_demand ev.date ev.scenario
    have h2 : memFaithful (stepEvent a ev).scenario_memory (acc ++ [ev]) := by
      rw [hstep]
      exact memFaithful_update a.scenario_memory acc h ev _
    have h3 := ih (stepEvent a ev) (acc ++ [ev]) h2
    simpa using h3

lemma init_memFaithful (s p q : ℚ) :
    memFaithful (init s p q).scenario_memory [] := by
  intro name
  constructor
  · intro e he
    simp [init, List.lookup] at he
  · intro _
    simp [recordedDemands]

/-- C1, counterexample: in the 18-day default run the period whose decision
has `action = "intelligent_reorder"` is day 17 (log index 16), and day 18
does not reorder — so the first reorder is not day 18 as the claim states. -/
theorem c1_counterexample :
    ((runEvents agentDefault (normalPeriods 18)).decisions_log.getD 16
      default).action = "intelligent_reorder" ∧
    ((runEvents agentDefault (normalPeriods 18)).decisions_log.getD 17
      default).action ≠ "intelligent_reorder" := by
  decide

/-- C1, amended: in the default 18-day run there is never a stockout, days
1–16 take no action, and the first `intelligent_reorder` is day 17, when
post-fulfillment stock has reached 300 (equal to the reorder point 300). -/
theorem c1_first_reorder_on_day17 :
    (runEvents agentDefault (normalPeriods 18)).stockouts = 0 ∧
    (∀ d ∈ (runEvents agentDefault (normalPeriods 18)).decisions_log,
      d.action ≠ "stockout") ∧
    (∀ i < 16, ((runEvents agentDefault (normalPeriods 18)).decisions_log.getD
      i default).action = "no_action") ∧
    ((runEvents agentDefault (normalPeriods 18)).decisions_log.getD 16
      default).action = "intelligent_reorder" ∧
    ((runEvents agentDefault (normalPeriods 18)).decisions_log.getD 16
        default).current_stock_before -
      ((runEvents agentDefault (normalPeriods 18)).decisions_log.getD 16
        default).demand_fulfilled = 300 ∧
    ((runEvents agentDefault (normalPeriods 18)).decisions_log.getD 16
      default).adaptive_reorder_point = 300 := by
  decide

/-- C2: at a reorder event with exactly 7 prior recorded periods the code
skips the trailing-demand heuristic (its guard is `len(decisions_log) > 7`,
contradicting the adjacent comment "If we have at least a week of data"),
ordering the base quantity 800, whereas the heuristic over the last 7
recorded demands (all 100) would give `max(800, 100·7·2.5) = 1750`. -/
theorem c2_seven_prior_periods_heuristic_skipped :
    (runEvents agentDefault (normalPeriods 7)).decisions_log.length = 7 ∧
    (stepEvent (runEvents agentDefault (normalPeriods 7))
      ⟨1000, 8, "Normal_Operations", 0⟩).orders_placed =
      [⟨8, 800, "Normal_Operations", "Normal", 24000, 3⟩] ∧
    truncQ (min (max 800
      (listMean ((runEvents agentDefault (normalPeriods 7)).decisions_log.map
        Decision.actual_demand) * 7 * (5/2))) 5000) = 1750 ∧
    (800 : ℤ) ≠ 1750 := by
  decide

/-- C3, counterexample: on the day-9 reorder of `c3Events` the resolved
urgency tier contains "Critical", yet the order quantity is 2400 — the
2.5-week branch — not the 2800 the 4-week "Critical" branch would produce:
the coverage selection reads the scenario label, not the urgency tier. -/
theorem c3_counterexample :
    pyIn "Critical" ((runEvents agentDefault c3Events).decisions_log.getD 8
      default).urgency_level = true ∧
    ((runEvents agentDefault c3Events).decisions_log.getD 8
      default).order_quantity = 2400 ∧
    truncQ (min (max
      ((runEvents agentDefault c3Events).decisions_log.getD 8
        default).adaptive_reorder_quantity
      (listMean (((runEvents agentDefault (normalPeriods 8)).decisions_log.drop
        1).map Decision.actual_demand) * 7 * 4)) 5000) = 2800 ∧
    ((runEvents agentDefault c3Events).decisions_log.getD 8
      default).order_quantity ≠ 2800 := by
  decide

/-- C3, amended: whenever the trailing-demand heuristic runs (more than 7
logged periods), `weeks_coverage` is 4 exactly when the *scenario label*
contains "Critical", 1.5 exactly when it contains "Conservative", and 2.5
otherwise — the urgency tier plays no role in the selection. -/
theorem c3_weeks_coverage_from_label (a : IntelligentInventoryAgent)
    (base pd : ℚ) (n : String) (h : a.decisions_log.length > 7) :
    calculate_smart_order_quantity a base pd n =
      truncQ (min (max base
        (listMean ((a.decisions_log.drop (a.decisions_log.length - 7)).map
          Decision.actual_demand) * 7 *
          (if pyIn "Critical" n then (4 : ℚ)
           else if pyIn "Conservative" n then 3/2 else 5/2)))
        a.max_order_size) := by
  have hlen : ((a.decisions_log.drop (a.decisions_log.length - 7)).map
      Decision.actual_demand).length = 7 := by
    simp only [List.length_map, List.length_drop]
    omega
  have hne : ((a.decisions_log.drop (a.decisions_log.length - 7)).map
      Decision.actual_demand) ≠ [] := by
    intro hnil
    rw [hnil] at hlen
    simp at hlen
  simp only [calculate_smart_order_quantity]
  rw [if_pos h, if_pos hne]

/-- C3, witness: the amended theorem evaluated on the engine after 8 normal
periods, sizing an order for the `"Normal_Operations"` label. -/
theorem c3_witness :
    calculate_smart_order_quantity (runEvents agentDefault (normalPeriods 8))
      800 100 "Normal_Operations" =
      truncQ (min (max 800
        (listMean (((runEvents agentDefault (normalPeriods 8)).decisions_log.drop
          ((runEvents agentDefault (normalPeriods 8)).decisions_log.length - 7)).map
          Decision.actual_demand) * 7 *
          (if pyIn "Critical" "Normal_Operations" then (4 : ℚ)
           else if pyIn "Conservative" "Normal_Operations" then 3/2 else 5/2)))
        (runEvents agentDefault (normalPeriods 8)).max_order_size) :=
  c3_weeks_coverage_from_label (runEvents agentDefault (normalPeriods 8))
    800 100 "Normal_Operations" (by decide)

/-- C4, counterexample: a period event with `predicted_demand = -50` is not
rejected — the engine processes it, appending a decision record and
creating a scenario-memory entry, so state is mutated. -/
theorem c4_counterexample :
    (agentDefault.make_intelligent_decision 0 (-50) 1
      "Normal_Operations").2 ≠ agentDefault ∧
    (agentDefault.make_intelligent_decision 0 (-50) 1
        "Normal_Operations").2.decisions_log.length =
      agentDefault.decisions_log.length + 1 := by
  decide

/-- C4, amended: a negative `predicted_demand` is clamped to 0 and the
period is processed exactly as if demand 0 had been submitted — the
decision log grows by the period's decision (no rejection, no unchanged
state). -/
theorem c4_negative_demand_clamped (a : IntelligentInventoryAgent)
    (noise pd : ℚ) (d : Nat) (n : String) (h : pd < 0) :
    a.make_intelligent_decision noise pd d n =
      a.make_intelligent_decision noise 0 d n ∧
    (a.make_intelligent_decision noise pd d n).2.decisions_log =
      a.decisions_log ++ [(a.make_intelligent_decision noise pd d n).1] := by
  constructor
  · simp only [make_intelligent_decision, max_eq_left h.le, max_self]
  · exact make_decisions_log a noise pd d n

/-- C4, witness: the amended theorem at the default engine with
`predicted_demand = -50`. -/
theorem c4_witness :
    agentDefault.make_intelligent_decision 0 (-50) 1 "Normal_Operations" =
      agentDefault.make_intelligent_decision 0 0 1 "Normal_Operations" ∧
    (agentDefault.make_intelligent_decision 0 (-50) 1
        "Normal_Operations").2.decisions_log =
      agentDefault.decisions_log ++
        [(agentDefault.make_intelligent_decision 0 (-50) 1
          "Normal_Operations").1] :=
  c4_negative_demand_clamped agentDefault 0 (-50) 1 "Normal_Operations"
    (by norm_num)

/-- C5, counterexample: after one processed period, `reset_simulation`
leaves `scenario_memory` non-empty, so it differs from the freshly
initialized (empty) memory. -/
theorem c5_counterexample :
    ((agentDefault.make_intelligent_decision 0 100 1
        "Normal_Operations").2.reset_simulation none).scenario_memory ≠
      (init 2000 300 800).scenario_memory := by
  decide

/-- C5, amended: `reset_simulation` with no stock argument reinitializes
current stock (to the default 2000), the order log, the decision log, the
stockout count, revenue, costs and the satisfaction score, but preserves
`scenario_memory` (and the configured policy parameters). -/
theorem c5_reset_reinitializes_all_but_memory (a : IntelligentInventoryAgent) :
    a.reset_simulation none =
      { a with current_stock := 2000, orders_placed := [], stockouts := 0,
               decisions_log := [], total_revenue := 0, total_costs := 0,
               customer_satisfaction_score := 100 } ∧
    (a.reset_simulation none).scenario_memory = a.scenario_memory := by
  exact ⟨rfl, rfl⟩

/-- C6, counterexample: an initial state with non-negative stock but a
negative configured base reorder quantity drives `current_stock` below 0
after a single valid period event. -/
theorem c6_counterexample :
    0 ≤ (init 0 300 (-100)).current_stock ∧
    (runEvents (init 0 300 (-100))
      [⟨0, 1, "Normal_Operations", 0⟩]).current_stock < 0 := by
  decide

/-- C6, amended: from any initial state with non-negative stock and a
non-negative configured base reorder quantity, `current_stock` stays
non-negative over every sequence of period events (fulfillment debits at
most the available stock, and orders then only add a non-negative
quantity). -/
theorem c6_stock_never_negative (s p q : ℚ) (evs : List PeriodEvent)
    (hs : 0 ≤ s) (hq : 0 ≤ q) :
    0 ≤ (runEvents (init s p q) evs).current_stock :=
  (runEvents_stock_invariant evs (init s p q) hs hq (by norm_num [init])).1

/-- C6, witness: the amended theorem at the default configuration over a
two-period run. -/
theorem c6_witness :
    0 ≤ (runEvents (init 2000 300 800)
      [⟨100, 1, "Normal_Operations", 0⟩,
       ⟨1900, 2, "Normal_Operations", 0⟩]).current_stock :=
  c6_stock_never_negative 2000 300 800 _ (by norm_num) (by norm_num)

/-- C7: every order appended during any sequence of period events has
quantity at most `max_order_size` (the sizing step clamps with
`min(·, max_order_size)` before truncating to an integer). -/
theorem c7_orders_within_max (s p q : ℚ) (evs : List PeriodEvent) :
    ∀ o ∈ (runEvents (init s p q) evs).orders_placed,
      (o.quantity : ℚ) ≤ (runEvents (init s p q) evs).max_order_size := by
  refine (runEvents_orders_invariant evs (init s p q)
    (by norm_num [init]) ?_).2
  intro o ho
  simp [init] at ho

/-- C7, witness: the theorem applied to the order placed on day 1 of a run
that immediately triggers a reorder. -/
theorem c7_witness :
    ((⟨1, 800, "Normal_Operations", "Normal", 24000, 3⟩ : Order).quantity : ℚ) ≤
      (runEvents (init 100 300 800)
        [⟨0, 1, "Normal_Operations", 0⟩]).max_order_size :=
  c7_orders_within_max 100 300 800 [⟨0, 1, "Normal_Operations", 0⟩]
    ⟨1, 800, "Normal_Operations", "Normal", 24000, 3⟩ (by decide)

/-- C8: after any sequence of period events over arbitrary scenario labels,
every label present in scenario memory has `encounters` equal to the number
of periods submitted with that label and `avg_demand` equal to the exact
arithmetic mean of the demand values recorded under it. -/
theorem c8_memory_exact (s p q : ℚ) (evs : List PeriodEvent) (name : String)
    (e : MemEntry)
    (h : ((runEvents (init s p q) evs).scenario_memory.lookup name) = some e) :
    e.encounters = (evs.filter (fun ev => ev.scenario == name)).length ∧
    e.avg_demand = listMean (recordedDemands evs name) := by
  have hfaith := runEvents_memFaithful evs (init s p q) []
    (init_memFaithful s p q)
  have := (hfaith name).1 e (by simpa using h)
  exact ⟨this.1, this.2.2⟩

/-- C8, witness: the theorem at a three-period run interleaving labels "A"
and "B"; the entry for "A" records 2 encounters with exact mean 150. -/
theorem c8_witness :
    (⟨2, 150, 200, ["Normal", "Normal"]⟩ : MemEntry).encounters =
      (([⟨100, 1, "A", 0⟩, ⟨200, 2, "A", 0⟩,
         ⟨7, 3, "B", 0⟩] : List PeriodEvent).filter
        (fun ev => ev.scenario == "A")).length ∧
    (⟨2, 150, 200, ["Normal", "Normal"]⟩ : MemEntry).avg_demand =
      listMean (recordedDemands
        [⟨100, 1, "A", 0⟩, ⟨200, 2, "A", 0⟩, ⟨7, 3, "B", 0⟩] "A") :=
  c8_memory_exact 2000 300 800
    [⟨100, 1, "A", 0⟩, ⟨200, 2, "A", 0⟩, ⟨7, 3, "B", 0⟩] "A"
    ⟨2, 150, 200, ["Normal", "Normal"]⟩ (by decide)

/-- C9: in any period whose fulfillment produces a stockout while the
post-fulfillment stock is at or below the adapted reorder point, the logged
decision's action is `intelligent_reorder` (overriding the pending
`stockout` action), and the stockout-count increment and the 2-point
satisfaction penalty are retained. -/
theorem c9_reorder_overrides_stockout (a : IntelligentInventoryAgent)
    (noise pd : ℚ) (d : Nat) (n : String)
    (h1 : 0 < (a.process_demand (max 0 (max 0 pd + noise))).2.1)
    (h2 : (a.process_demand (max 0 (max 0 pd + noise))).2.2.current_stock ≤
      (analyze_scenario_policy a n).reorder_point) :
    (a.make_intelligent_decision noise pd d n).1.action =
      "intelligent_reorder" ∧
    (a.make_intelligent_decision noise pd d n).2.stockouts =
      a.stockouts + 1 ∧
    (a.make_intelligent_decision noise pd d n).2.customer_satisfaction_score =
      max 0 (a.customer_satisfaction_score - 2) := by
  by_cases hc : a.current_stock ≥ max 0 (max 0 pd + noise)
  · exfalso
    simp [process_demand, hc] at h1
  · have hlt : a.current_stock < max 0 (max 0 pd + noise) := not_le.mp hc
    have h3 : 0 < max 0 (max 0 pd + noise) - a.current_stock :=
      sub_pos.mpr hlt
    have h2' : (0 : ℚ) ≤ (analyze_scenario_policy a n).reorder_point := by
      simpa [process_demand, hc] using h2
    refine ⟨?_, ?_, ?_⟩ <;>
      simp [make_intelligent_decision, analyze_scenario_and_adapt,
        process_demand, record_order, hc, h3, h2']

/-- C9, witness: the spec's own end-to-end example — stock 300, a
`"Viral_Spike_Test"` period with predicted demand 500 and zero noise:
the stockout happens, yet the logged action is the reorder. -/
theorem c9_witness :
    ((init 300 300 800).make_intelligent_decision 0 500 1
      "Viral_Spike_Test").1.action = "intelligent_reorder" ∧
    ((init 300 300 800).make_intelligent_decision 0 500 1
      "Viral_Spike_Test").2.stockouts = (init 300 300 800).stockouts + 1 ∧
    ((init 300 300 800).make_intelligent_decision 0 500 1
      "Viral_Spike_Test").2.customer_satisfaction_score =
      max 0 ((init 300 300 800).customer_satisfaction_score - 2) :=
  c9_reorder_overrides_stockout (init 300 300 800) 0 500 1 "Viral_Spike_Test"
    (by decide) (by decide)

/-- C10: `reset_simulation` with an explicit stock of 0 falls back to the
default 2000 (Python truthiness treats 0 like None), while any positive
stock argument is used as given. -/
theorem c10_reset_zero_like_none (a : IntelligentInventoryAgent) (s : ℚ) :
    (a.reset_simulation (some 0)).current_stock = 2000 ∧
    (0 < s → (a.reset_simulation (some s)).current_stock = s) := by
  constructor
  · simp [reset_simulation]
  · intro h
    simp [reset_simulation, h.ne']

/-- C10, witness: the theorem at the default engine and stock 5. -/
theorem c10_witness :
    (agentDefault.reset_simulation (some 0)).current_stock = 2000 ∧
    (agentDefault.reset_simulation (some 5)).current_stock = 5 :=
  ⟨(c10_reset_zero_like_none agentDefault 5).1,
   (c10_reset_zero_like_none agentDefault 5).2 (by norm_num)⟩

end ClaimVerification

end InventorySpec
